import Mathlib

/-!
Verification development for the tendril-utils-db repository.

The repository is configuration and glue code around SQLAlchemy:
a session context manager (`get_session`), a session-injecting
decorator (`with_db`), a database URI builder (`build_db_uri`),
configuration option templates (`_db_config_template` and the
module-level `load`), and a metadata aggregator (`get_metadata`).

The embedding below models each of these directly from the Python
source in `src/tendril/utils/db.py` and `src/tendril/config/db.py`.
Effectful Python constructs are modelled explicitly:

* a session body is a value of `BodyResult`, either a returned value
  or a raised exception;
* the calls `get_session` makes on the underlying SQLAlchemy session
  (`commit`, `rollback`, `close`) are recorded as a list of
  `SessionEvent`s, together with the acquisition of the session;
* the fallibility of `session.commit()` is an explicit parameter
  (`commitFailure`), since the Python code sits inside a bare
  `try/except` that also catches commit failures;
* `importlib.import_module` is modelled as an oracle
  `String → ImportResult` distinguishing success, `ImportError`
  (which the source catches) and any other exception (which the
  source does not catch);
* `get_namespace_package_names` is an external function of the
  tendril.utils.versions module and is modelled as an oracle
  `String → List String`.
-/

/-- Result of executing a Python block: either a returned value or a
raised exception. -/
inductive BodyResult (α ε : Type) : Type
  | ok (v : α)
  | exn (e : ε)
deriving DecidableEq, Repr

/-- Calls issued by `get_session` on the underlying ORM session object,
in order: acquisition (`session = Session()`), `session.commit()`,
`session.rollback()`, `session.close()`. -/
inductive SessionEvent : Type
  | acquire
  | commit
  | rollback
  | close
deriving DecidableEq, Repr

/-- Observable behaviour of one run of the `get_session` context
manager: the ordered calls made on the ORM session, and what the
context manager does at the end (return a value or re-raise). -/
structure SessionOutcome (α ε : Type) : Type where
  events : List SessionEvent
  result : BodyResult α ε
deriving DecidableEq, Repr

/-- Model of the `get_session` context manager of
`src/tendril/utils/db.py`:

```
session = Session()
try:
    yield session
    session.commit()
except:
    session.rollback()
    raise
finally:
    session.close()
```

`body` is the outcome of the code executed at the `yield` point, and
`commitFailure` says whether `session.commit()` raises (`some c`) or
succeeds (`none`). The bare `except:` catches both a body exception
and a commit exception; the `finally:` always closes the session. -/
def get_session {α ε : Type} (body : BodyResult α ε) (commitFailure : Option ε) :
    SessionOutcome α ε :=
  match body with
  | .exn e => ⟨[.acquire, .rollback, .close], .exn e⟩
  | .ok v =>
    match commitFailure with
    | none => ⟨[.acquire, .commit, .close], .ok v⟩
    | some c => ⟨[.acquire, .commit, .rollback, .close], .exn c⟩

/-- Observable behaviour of one call of a `with_db`-decorated function:
whether a fresh session was created through `get_session`, the calls
made on that fresh session, and the overall result. -/
structure WithDbOutcome (β ε : Type) : Type where
  createdSession : Bool
  events : List SessionEvent
  result : BodyResult β ε
deriving DecidableEq, Repr

/-- Model of the `inner` wrapper produced by the `with_db` decorator of
`src/tendril/utils/db.py`:

```
session = kwargs.get("session", None)
if session is None:
    with get_session() as s:
        kwargs["session"] = s
        return func(*args, **kwargs)
else:
    return func(*args, **kwargs)
```

`func` is the decorated function, taking its other arguments `args`
and the session it is handed; `fresh` is the session object a call to
`get_session` would produce; `sessionKw` is the value of the `session`
keyword argument (`none` models Python `None` or an absent keyword). -/
def with_db {α σ β ε : Type} (func : α → σ → BodyResult β ε)
    (commitFailure : Option ε) (fresh : σ) (args : α) (sessionKw : Option σ) :
    WithDbOutcome β ε :=
  match sessionKw with
  | some s => ⟨false, [], func args s⟩
  | none =>
    let so := get_session (func args fresh) commitFailure
    ⟨true, so.events, so.result⟩

/-- Model of the Python function `build_db_uri` of
`src/tendril/config/db.py`, which evaluates
the format call of the template `postgresql://{0}:{1}@{2}:{3}/{4}`
on `(dbuser, dbpass, dbhost, dbport, dbname)`: the constant template with positional argument `{0}`
replaced by `dbuser`, `{1}` by `dbpass`, `{2}` by `dbhost`, `{3}` by
`dbport` and `{4}` by `dbname`. -/
def build_db_uri (dbhost dbport dbuser dbpass dbname : String) : String :=
  "postgresql://" ++ dbuser ++ ":" ++ dbpass ++ "@" ++ dbhost ++ ":" ++ dbport
    ++ "/" ++ dbname

/-- Written from the spec alone: the database connection string format
is the standard URI `postgresql://{user}:{pass}@{host}:{port}/{db}`.
This is compared with the source definition `build_db_uri` in C3. -/
def db_uri_spec_format (user pw host port db : String) : String :=
  "postgresql://" ++ user ++ ":" ++ pw ++ "@" ++ host ++ ":" ++ port ++ "/" ++ db

/-- Configuration element registered with the config manager: either a
plain `ConfigOption` (name, default value, documentation, masked flag,
False unless given) or the derived `DbUri` construct (name, the server
code stored as `_parameters`, documentation), which holds no stored
value of its own. -/
inductive ConfigElement : Type
  | option (name dflt doc : String) (masked : Bool)
  | dbUri (name parameters doc : String)
deriving DecidableEq, Repr

/-- Name of a configuration element. -/
def ConfigElement.name : ConfigElement → String
  | .option n _ _ _ => n
  | .dbUri n _ _ => n

/-- Default value of a configuration element; the `DbUri` construct has
none. -/
def ConfigElement.defaultValue : ConfigElement → Option String
  | .option _ d _ _ => some d
  | .dbUri _ _ _ => none

/-- Model of the `value` property of the `DbUri` config construct of
`src/tendril/config/db.py`: on every access it recomputes
`build_db_uri` from the current values of the five sibling options in
the config context `ctx`, keyed by the stored server code
`parameters`. -/
def DbUri.value (ctx : String → String) (parameters : String) : String :=
  build_db_uri
    (ctx ("DATABASE" ++ parameters ++ "_HOST"))
    (ctx ("DATABASE" ++ parameters ++ "_PORT"))
    (ctx ("DATABASE" ++ parameters ++ "_USER"))
    (ctx ("DATABASE" ++ parameters ++ "_PASS"))
    (ctx ("DATABASE" ++ parameters ++ "_DB"))

/-- Model of `_db_config_template` of `src/tendril/config/db.py`: the
list of configuration elements declared for one database server code. -/
def _db_config_template (db_code : String) : List ConfigElement :=
  [ .option ("DATABASE" ++ db_code ++ "_HOST") "None"
      "The database server host." false,
    .option ("DATABASE" ++ db_code ++ "_PORT") "5432"
      "The database server port." false,
    .option ("DATABASE" ++ db_code ++ "_USER") "None"
      "The username to login to the database server." false,
    .option ("DATABASE" ++ db_code ++ "_PASS") "None"
      "The password to login to the database server." true,
    .option ("DATABASE" ++ db_code ++ "_DB") "None"
      "The name of the database." false,
    .dbUri ("DATABASE" ++ db_code ++ "_URI") db_code
      "Constructed Database URI string. This option is created by the code, and should not be set directly in any config file.",
    .option ("DATABASE" ++ db_code ++ "_PACKAGE_PREFIXES") "None"
      "List of package namespaces other than tendril to search for DB models."
      false ]

/-- Model of `load(manager)` of `src/tendril/config/db.py`: the
elements it hands to `manager.load_elements` are the concatenation of
`_db_config_template(code)` over `manager.DB_SERVER_CODES`. -/
def load (db_server_codes : List String) : List ConfigElement :=
  db_server_codes.flatMap _db_config_template

/-- The seven option names `_db_config_template` declares for a server
code. -/
def db_option_names (db_code : String) : List String :=
  [ "DATABASE" ++ db_code ++ "_HOST",
    "DATABASE" ++ db_code ++ "_PORT",
    "DATABASE" ++ db_code ++ "_USER",
    "DATABASE" ++ db_code ++ "_PASS",
    "DATABASE" ++ db_code ++ "_DB",
    "DATABASE" ++ db_code ++ "_URI",
    "DATABASE" ++ db_code ++ "_PACKAGE_PREFIXES" ]

/-- The five config option names the `DbUri` value for a server code is
computed from. -/
def db_uri_source_keys (db_code : String) : List String :=
  [ "DATABASE" ++ db_code ++ "_HOST",
    "DATABASE" ++ db_code ++ "_PORT",
    "DATABASE" ++ db_code ++ "_USER",
    "DATABASE" ++ db_code ++ "_PASS",
    "DATABASE" ++ db_code ++ "_DB" ]

/-- The SQLAlchemy metadata registry; `get_metadata` always returns the
`DeclBase.metadata` object. -/
inductive Metadata : Type
  | declBase
deriving DecidableEq, Repr

/-- Outcome of one `importlib.import_module` call: success, an
`ImportError` (caught by the source), or any other exception (not
caught by the source). -/
inductive ImportResult : Type
  | ok
  | importError
  | otherError
deriving DecidableEq, Repr

/-- Model of `_default_prefixes` of `src/tendril/utils/db.py`. -/
def _default_prefixes : List String := ["tendril"]

/-- Model of `_excluded_prefixes` of `src/tendril/utils/db.py`. -/
def _excluded_prefixes : List String :=
  [ "tendril.schema", "tendril.interests", "tendril.config",
    "tendril.db", "tendril.common", "tendril.utils" ]

/-- Model of `_user_models_prefix` of `src/tendril/utils/db.py`. -/
def _user_models_prefix : List String := ["tendril.db.models"]

/-- The prefix list `get_metadata` actually scans:
`_default_prefixes + (prefixes or [])`, where `none` models Python
`None` (and an absent argument defaults to the config value). -/
def effective_prefixes (prefixes : Option (List String)) : List String :=
  _default_prefixes ++ prefixes.getD []

/-- The packages of the prefix scan whose `.db.model` submodule
`get_metadata` tries to import: the namespace packages under each
effective prefix, minus the exclusion list. -/
def scanned_packages (ns : String → List String)
    (prefixes : Option (List String)) : List String :=
  (effective_prefixes prefixes).flatMap
    (fun pre => (ns pre).filter (fun p => ! decide (p ∈ _excluded_prefixes)))

/-- Module names the prefix scan of `get_metadata` imports, in order. -/
def scan_modules (ns : String → List String)
    (prefixes : Option (List String)) : List String :=
  (scanned_packages ns prefixes).map (fun p => p ++ ".db.model")

/-- Module names the user-models loop of `get_metadata` imports: the
namespace packages under `_user_models_prefix`, with no exclusion. -/
def user_model_modules (ns : String → List String) : List String :=
  _user_models_prefix.flatMap ns

/-- All module names `get_metadata` would try to import, in order:
first the prefix scan, then the user-models loop. -/
def candidate_modules (ns : String → List String)
    (prefixes : Option (List String)) : List String :=
  scan_modules ns prefixes ++ user_model_modules ns

/-- Trace of a sequence of `importlib.import_module` calls guarded by
`except ImportError`: the modules for which an import was attempted
(in order), the failures logged via `logger.debug(e)`, and whether an
uncaught exception aborted the sequence. -/
structure ImportTrace : Type where
  attempted : List String
  logged : List String
  aborted : Bool
deriving DecidableEq, Repr

/-- Runs the import loop of `get_metadata` over a list of module
names: `ImportError` is logged and skipped, any other exception stops
the loop (and propagates). -/
def run_imports (imp : String → ImportResult) : List String → ImportTrace
  | [] => ⟨[], [], false⟩
  | m :: ms =>
    match imp m with
    | .otherError => ⟨[m], [], true⟩
    | .importError =>
      let r := run_imports imp ms
      ⟨m :: r.attempted, m :: r.logged, r.aborted⟩
    | .ok =>
      let r := run_imports imp ms
      ⟨m :: r.attempted, r.logged, r.aborted⟩

/-- Observable behaviour of one call of `get_metadata`: the import
trace, and the returned value (`some Metadata.declBase` for a normal
return, `none` when an uncaught exception propagates to the caller). -/
structure MetadataResult : Type where
  trace : ImportTrace
  outcome : Option Metadata
deriving DecidableEq, Repr

/-- Model of `get_metadata` of `src/tendril/utils/db.py`: scan the
namespace packages under every effective prefix, import each
the `.db.model` module of each non-excluded package under `except ImportError`,
then import the user-model modules the same way, and finally return
`DeclBase.metadata`. `ns` models `get_namespace_package_names` and
`imp` models `importlib.import_module`. -/
def get_metadata (ns : String → List String) (imp : String → ImportResult)
    (prefixes : Option (List String)) : MetadataResult :=
  let t := run_imports imp (candidate_modules ns prefixes)
  ⟨t, if t.aborted then none else some Metadata.declBase⟩

/-- C1: if the body of a `get_session` context raises any exception,
`session.rollback()` is invoked (exactly once) and the very same
exception is re-raised unchanged to the caller. -/
theorem get_session_rollback_and_reraise_on_exn {α ε : Type} (e : ε)
    (commitFailure : Option ε) :
    (get_session (α := α) (.exn e) commitFailure).events.count .rollback = 1 ∧
    (get_session (α := α) (.exn e) commitFailure).result = .exn e :=
  ⟨rfl, rfl⟩

/-- C2: if the body of a `get_session` context completes without
raising, `session.commit()` is invoked exactly once when the context
exits, whether or not the commit itself then succeeds. -/
theorem get_session_commits_once_on_success {α ε : Type} (v : α)
    (commitFailure : Option ε) :
    (get_session (.ok v) commitFailure).events.count .commit = 1 := by
  cases commitFailure <;> rfl

/-- C5: on every path through `get_session` — successful commit, body
exception followed by rollback, or failure of the commit itself —
`session.close()` is invoked exactly once. -/
theorem get_session_closes_once {α ε : Type} (body : BodyResult α ε)
    (commitFailure : Option ε) :
    (get_session body commitFailure).events.count .close = 1 := by
  cases body <;> cases commitFailure <;> rfl

/-- C6: calling a `with_db`-decorated function with `session=None` (or
no session keyword) creates a new session through `get_session`, calls
the decorated function with that fresh session, and returns its return
value (here: when the function returns normally and the commit
succeeds). -/
theorem with_db_creates_session_when_none {α σ β ε : Type}
    (func : α → σ → BodyResult β ε) (fresh : σ) (args : α) (v : β)
    (h : func args fresh = .ok v) :
    (with_db func none fresh args none).createdSession = true ∧
    (with_db func none fresh args none).events =
      (get_session (func args fresh) (none : Option ε)).events ∧
    (with_db func none fresh args none).result = .ok v := by
  refine ⟨rfl, rfl, ?_⟩
  simp [with_db, get_session, h]

/-- Witness for C6 at a concrete decorated function. -/
theorem with_db_creates_session_when_none_witness :
    ((fun (a : Nat) (s : Nat) => BodyResult.ok (ε := Nat) (a + s)) 2 3 = .ok 5) ∧
    (with_db (fun (a : Nat) (s : Nat) => BodyResult.ok (ε := Nat) (a + s))
        none 3 2 none).result = .ok 5 :=
  ⟨rfl, (with_db_creates_session_when_none
      (fun (a : Nat) (s : Nat) => BodyResult.ok (ε := Nat) (a + s))
      3 2 5 rfl).2.2⟩

/-- C9: calling a `with_db`-decorated function with a non-None session
keyword calls the function directly with the caller-supplied arguments
and returns its result; no new session is created and no commit,
rollback or close is issued on the caller-provided session. -/
theorem with_db_passthrough_when_session_given {α σ β ε : Type}
    (func : α → σ → BodyResult β ε) (commitFailure : Option ε)
    (fresh : σ) (args : α) (s : σ) :
    (with_db func commitFailure fresh args (some s)).createdSession = false ∧
    (with_db func commitFailure fresh args (some s)).events = [] ∧
    (with_db func commitFailure fresh args (some s)).result = func args s :=
  ⟨rfl, rfl, rfl⟩

/-- C3: `build_db_uri(dbhost, dbport, dbuser, dbpass, dbname)` returns
exactly the string of the spec format
`postgresql://{user}:{pass}@{host}:{port}/{db}`: user and password
come from `dbuser`/`dbpass`, host and port from `dbhost`/`dbport`, and
the trailing component from `dbname`. -/
theorem build_db_uri_matches_spec_format
    (dbhost dbport dbuser dbpass dbname : String) :
    build_db_uri dbhost dbport dbuser dbpass dbname =
      db_uri_spec_format dbuser dbpass dbhost dbport dbname := rfl

/-- C7: for every server code in DB_SERVER_CODES, `load` registers
exactly the seven options DATABASE{code}_HOST, _PORT, _USER, _PASS,
_DB, _URI and _PACKAGE_PREFIXES, and the port option carries the
default value "5432". -/
theorem load_registers_seven_options_per_code (code : String)
    (codes : List String) :
    ( _db_config_template code).map ConfigElement.name = db_option_names code ∧
    ( _db_config_template code).get? 1 =
      some (.option ("DATABASE" ++ code ++ "_PORT") "5432"
        "The database server port." false) ∧
    (load codes).map ConfigElement.name = codes.flatMap db_option_names := by
  refine ⟨rfl, rfl, ?_⟩
  induction codes with
  | nil => rfl
  | cons c cs ih =>
    simp only [load, List.flatMap_cons, List.map_append] at ih ⊢
    rw [ih]
    rfl

/-- C8: the DATABASE{code}_URI value is derived, not stored: it always
equals `build_db_uri` applied to the current values of the five
corresponding options, it depends on nothing else in the config
context (two contexts agreeing on those five keys yield the same URI),
and the `DbUri` element registered by `_db_config_template` carries no
stored default value of its own. -/
theorem dburi_value_is_derived (ctx ctx2 : String → String) (code : String)
    (h : ∀ k ∈ db_uri_source_keys code, ctx k = ctx2 k) :
    DbUri.value ctx code =
      build_db_uri
        (ctx ("DATABASE" ++ code ++ "_HOST"))
        (ctx ("DATABASE" ++ code ++ "_PORT"))
        (ctx ("DATABASE" ++ code ++ "_USER"))
        (ctx ("DATABASE" ++ code ++ "_PASS"))
        (ctx ("DATABASE" ++ code ++ "_DB")) ∧
    DbUri.value ctx code = DbUri.value ctx2 code ∧
    (( _db_config_template code).get? 5).map ConfigElement.defaultValue =
      some none := by
  refine ⟨rfl, ?_, rfl⟩
  have hh := h ("DATABASE" ++ code ++ "_HOST") (by simp [db_uri_source_keys])
  have hp := h ("DATABASE" ++ code ++ "_PORT") (by simp [db_uri_source_keys])
  have hu := h ("DATABASE" ++ code ++ "_USER") (by simp [db_uri_source_keys])
  have hw := h ("DATABASE" ++ code ++ "_PASS") (by simp [db_uri_source_keys])
  have hd := h ("DATABASE" ++ code ++ "_DB") (by simp [db_uri_source_keys])
  simp [DbUri.value, hh, hp, hu, hw, hd]

/-- Witness for C8 at a concrete pair of contexts agreeing on the five
source keys. -/
theorem dburi_value_is_derived_witness :
    DbUri.value (fun k => k) "" = DbUri.value (fun k => k ++ "") "" :=
  (dburi_value_is_derived (fun k => k) (fun k => k ++ "") ""
    (by intro k _; simp)).2.1

/-- Helper: when no module raises anything but `ImportError`, the loop
of imports attempts every module, logs exactly the `ImportError`
failures, and is never aborted. -/
theorem run_imports_no_other (imp : String → ImportResult) (l : List String)
    (h : ∀ m ∈ l, imp m ≠ .otherError) :
    run_imports imp l =
      ⟨l, l.filter (fun m => imp m == .importError), false⟩ := by
  induction l with
  | nil => rfl
  | cons m ms ih =>
    have hm := h m (List.mem_cons_self m ms)
    have ih2 := ih (fun x hx => h x (List.mem_cons_of_mem m hx))
    cases hi : imp m with
    | otherError => exact absurd hi hm
    | importError => simp [run_imports, hi, ih2, List.filter_cons]
    | ok => simp [run_imports, hi, ih2, List.filter_cons]

/-- C4 counterexample: a model module whose import raises an exception
other than `ImportError` is neither logged nor skipped — the exception
escapes `get_metadata`. With one package `tendril.apps` under the
default prefix whose `tendril.apps.db.model` import raises a
non-ImportError exception, the call aborts (`outcome = none`) and
nothing is logged. -/
theorem get_metadata_uncaught_exception_counterexample :
    (get_metadata (fun pre => if pre = "tendril" then ["tendril.apps"] else [])
        (fun m => if m = "tendril.apps.db.model" then .otherError else .ok)
        none).outcome = none ∧
    (get_metadata (fun pre => if pre = "tendril" then ["tendril.apps"] else [])
        (fun m => if m = "tendril.apps.db.model" then .otherError else .ok)
        none).trace.logged = [] := by
  constructor <;> rfl

/-- C4 (amended): every `ImportError` raised while importing a
candidate model module is logged and the module skipped, with the
aggregation continuing through all remaining candidates and no
exception reaching the caller — provided no import raises an
exception other than `ImportError` (those are not caught and
propagate). -/
theorem get_metadata_skips_import_errors (ns : String → List String)
    (imp : String → ImportResult) (prefixes : Option (List String))
    (h : ∀ m, imp m ≠ .otherError) :
    (get_metadata ns imp prefixes).trace.attempted =
      candidate_modules ns prefixes ∧
    (get_metadata ns imp prefixes).trace.logged =
      (candidate_modules ns prefixes).filter
        (fun m => imp m == .importError) ∧
    (get_metadata ns imp prefixes).outcome = some .declBase := by
  have hr := run_imports_no_other imp (candidate_modules ns prefixes)
    (fun m _ => h m)
  simp [get_metadata, hr]

/-- Witness for the amended C4 with a concrete import oracle that only
raises `ImportError`. -/
theorem get_metadata_skips_import_errors_witness :
    (get_metadata (fun _ => ["tendril.apps"]) (fun _ => .importError)
        none).outcome = some .declBase :=
  (get_metadata_skips_import_errors (fun _ => ["tendril.apps"])
    (fun _ => .importError) none (fun m => by simp)).2.2

/-- C10: for every `prefixes` argument (including `None` and the empty
list) the default prefix `tendril` is prepended before the
caller-supplied prefixes and hence always searched, no package of the
exclusion list is ever imported by the prefix scan, and whenever
`get_metadata` returns it returns `DeclBase.metadata`. -/
theorem get_metadata_default_and_exclusions (ns : String → List String)
    (imp : String → ImportResult) (prefixes : Option (List String)) :
    effective_prefixes prefixes = "tendril" :: prefixes.getD [] ∧
    (∀ p ∈ _excluded_prefixes, p ∉ scanned_packages ns prefixes) ∧
    (∀ m, (get_metadata ns imp prefixes).outcome = some m →
      m = .declBase) := by
  refine ⟨rfl, ?_, ?_⟩
  · intro p hp hmem
    simp only [scanned_packages, List.mem_flatMap, List.mem_filter,
      Bool.not_eq_true', decide_eq_false_iff_not] at hmem
    obtain ⟨pre, -, -, hnc⟩ := hmem
    exact hnc hp
  · intro m hm
    cases m
    rfl

/-- Witness for C10: with concrete namespace contents, the excluded
package `tendril.config` does not make it into the prefix scan. -/
theorem get_metadata_default_and_exclusions_witness :
    "tendril.config" ∉
      scanned_packages (fun _ => ["tendril.config", "tendril.apps"])
        (some ["x"]) :=
  (get_metadata_default_and_exclusions
    (fun _ => ["tendril.config", "tendril.apps"]) (fun _ => .ok)
    (some ["x"])).2.1 "tendril.config" (by decide)
